import Mathlib

/-!
Verification of the request-handling pipeline of the background-removal
HTTP service (src/server.js, variant A, and src/unnamed/part_000,
variant C).  The two JavaScript files are shallowly embedded below:
multer upload validation (size limit, mime allow-list), temporary-file
staging in the system scratch directory, the opaque background-removal
call, response translation and unconditional cleanup.  The external
backend, the filesystem write and the unlink outcome are oracle
parameters of the handler, collected in `Env`.
-/

namespace BgRemover

/-- One uploaded file as multer presents it to the handler:
`req.file.originalname`, `req.file.mimetype`, `req.file.buffer`. -/
structure UploadFile where
  originalname : String
  mimetype : String
  buffer : List Nat
deriving DecidableEq, Repr

/-- `req.file.size`: multer's memory storage sets it to the buffer length. -/
def UploadFile.size (f : UploadFile) : Nat := f.buffer.length

/-- One HTTP request to POST /remove-background: the optional single file
of the `image` field and the optional `resolution` query parameter
(present in the URL but never read by either variant). -/
structure Request where
  file : Option UploadFile
  resolution : Option String
deriving DecidableEq, Repr

/-- A JavaScript Error as the catch block reads it: `name`, `message`,
and `cause` (modelled as its stringification when present and truthy,
`none` otherwise). -/
structure JsError where
  ename : String
  msg : String
  cause : Option String
deriving DecidableEq, Repr

/-- The Blob returned by `removeBackground`: declared content type
(the empty string when the backend leaves it unspecified, as for a
JavaScript Blob) and the processed bytes. -/
structure Blob where
  btype : String
  bdata : List Nat
deriving DecidableEq, Repr

/-- The configuration object passed to `removeBackground`.  The progress
callback is purely observational (logging) and is not modelled; the
`model` selector is: src/server.js passes no model key, while
src/unnamed/part_000 passes `model: "small"`. -/
structure ImglyConfig where
  model : Option String
deriving DecidableEq, Repr

/-- Response body: raw image bytes, a one-field JSON error object, or
the four-field JSON error object of the catch block (`cause` is `none`
for JSON null). -/
inductive RespBody where
  | bytes (b : List Nat)
  | errorOnly (error : String)
  | errorFull (error details ename : String) (cause : Option String)
deriving DecidableEq, Repr

/-- An HTTP response: status, the two explicitly set headers, body. -/
structure HttpResponse where
  status : Nat
  contentType : Option String
  contentDisposition : Option String
  body : RespBody
deriving DecidableEq, Repr

/-- The filesystem of staged files, as an association list from paths to
contents. -/
def FS : Type := List (String × List Nat)

instance : DecidableEq FS := by
  unfold FS
  infer_instance

/-- Whether a path exists in the filesystem (`fs.stat` succeeding). -/
def fsHas (fs : FS) (p : String) : Bool :=
  fs.any (fun e => e.1 == p)

/-- `fs.writeFile`: create or overwrite the file at `p`. -/
def fsWrite (fs : FS) (p : String) (b : List Nat) : FS :=
  (p, b) :: fs.filter (fun e => e.1 != p)

/-- `fs.unlink`: remove the file at `p`. -/
def fsDel (fs : FS) (p : String) : FS :=
  fs.filter (fun e => e.1 != p)

/-- The oracles a single request consumes: whether the staging write
succeeds (and the error it throws otherwise), the behaviour of the
opaque `removeBackground` call, and whether `fs.unlink` succeeds. -/
structure Env where
  writeOk : Bool
  writeErr : JsError
  removeBackground : String → ImglyConfig → Except JsError Blob
  unlinkOk : Bool

/-- The mime allow-list of the multer `fileFilter` in both variants. -/
def allowedMime (m : String) : Bool :=
  m == "image/jpeg" || m == "image/png" || m == "image/webp"

/-- `limits.fileSize` of both variants: `10 * 1024 * 1024`. -/
def fileSizeLimit : Nat := 10 * 1024 * 1024

/-- Outcome of the multer middleware for the single `image` field. -/
inductive MulterOutcome where
  | accepted (f : Option UploadFile)
  | sizeError
  | typeError
deriving DecidableEq, Repr

/-- The multer middleware of both variants: with no file it passes
through; otherwise the `fileFilter` checks the declared mimetype against
the allow-list (before any body bytes are consumed), and the streamed
size is checked against `limits.fileSize` (exceeding it raises
`MulterError LIMIT_FILE_SIZE`; exactly reaching it is accepted). -/
def multerProcess (mf : Option UploadFile) : MulterOutcome :=
  match mf with
  | none => .accepted none
  | some f =>
    if allowedMime f.mimetype then
      if f.size ≤ fileSizeLimit then .accepted (some f) else .sizeError
    else .typeError

/-- Node `path.posix.basename` on a list of characters: trailing
separators are dropped, then everything up to the last separator; an
all-separator input yields "/" and the empty input yields "". -/
def basenameChars (l : List Char) : List Char :=
  let t := (l.reverse.dropWhile (fun c => c == '/')).reverse
  if t.isEmpty then (if l.isEmpty then [] else ['/'])
  else (t.reverse.takeWhile (fun c => c != '/')).reverse

/-- `path.basename`, used to sanitize `req.file.originalname`. -/
def basename (s : String) : String := ⟨basenameChars s.data⟩

/-- `os.tmpdir()`: the system scratch directory. -/
def tmpdir : String := "/tmp"

/-- `tempInputFilename`: the unique suffix (12 hex characters from
`crypto.randomBytes(6).toString("hex")`) prepended to the sanitized base
name. -/
def tempInputFilename (uniqueSuffix origName : String) : String :=
  "input-" ++ uniqueSuffix ++ "-" ++ basename origName

/-- `tempInputPath = path.join(tempDir, tempInputFilename)`; the joined
filename contains no leading separator, so the join is concatenation
with one separator. -/
def tempInputPath (uniqueSuffix origName : String) : String :=
  tmpdir ++ "/" ++ tempInputFilename uniqueSuffix origName

/-- `pathToFileURL(p).href`, used opaquely as the backend input. -/
def fileURL (p : String) : String := "file://" ++ p

/-- The 500 JSON response built by the catch block of both variants. -/
def errorResponse (e : JsError) : HttpResponse :=
  { status := 500, contentType := none, contentDisposition := none,
    body := .errorFull "Failed to remove background." e.msg e.ename e.cause }

/-- The finally block of both variants: `fs.stat` guards the unlink, so
an absent file is tolerated (no unlink is attempted and nothing is
thrown); a failing unlink is caught and only logged, leaving the file in
place and the response untouched. -/
def cleanupTempFile (env : Env) (p : String) (fs : FS) : FS :=
  if fsHas fs p then (if env.unlinkOk then fsDel fs p else fs) else fs

/-- The 200 response of the success path of both variants:
`res.setHeader("Content-Type", blob.type || "image/png")`, the fixed
Content-Disposition header, and `res.send(processedImageBuffer)`. -/
def successResponse (blob : Blob) : HttpResponse :=
  { status := 200,
    contentType := some (if blob.btype == "" then "image/png" else blob.btype),
    contentDisposition := some "inline; filename=\"background-removed.png\"",
    body := .bytes blob.bdata }

/-- The try/catch/finally of the POST /remove-background handler, after
the missing-file check, for an accepted file `f`.  `cfg` is the
configuration the variant passes to `removeBackground`. -/
def handleUpload (cfg : ImglyConfig) (env : Env) (uniqueSuffix : String)
    (f : UploadFile) (fs0 : FS) : HttpResponse × FS :=
  let p := tempInputPath uniqueSuffix f.originalname
  if env.writeOk then
    let fs1 := fsWrite fs0 p f.buffer
    match env.removeBackground (fileURL p) cfg with
    | .ok blob => (successResponse blob, cleanupTempFile env p fs1)
    | .error e => (errorResponse e, cleanupTempFile env p fs1)
  else
    (errorResponse env.writeErr, cleanupTempFile env p fs0)

/-- The 400 response of the global error handler for
`MulterError LIMIT_FILE_SIZE` (whose message is "File too large"). -/
def multerErrorResponse : HttpResponse :=
  { status := 400, contentType := none, contentDisposition := none,
    body := .errorOnly "Multer error: File too large" }

/-- The 400 response of the global error handler for the `fileFilter`
rejection error. -/
def fileFilterErrorResponse : HttpResponse :=
  { status := 400, contentType := none, contentDisposition := none,
    body := .errorOnly
      "File upload error: Invalid file type. Only JPEG, PNG, and WEBP images are allowed." }

/-- The 400 response of the handler when `req.file` is undefined. -/
def missingFileResponse : HttpResponse :=
  { status := 400, contentType := none, contentDisposition := none,
    body := .errorOnly "No image file uploaded." }

/-- The whole per-request behaviour of POST /remove-background for the
variant that passes `cfg` to `removeBackground`: multer runs first (its
errors reach the global error handler), then the handler. -/
def serverRespond (cfg : ImglyConfig) (env : Env) (uniqueSuffix : String)
    (req : Request) (fs0 : FS) : HttpResponse × FS :=
  match multerProcess req.file with
  | .sizeError => (multerErrorResponse, fs0)
  | .typeError => (fileFilterErrorResponse, fs0)
  | .accepted none => (missingFileResponse, fs0)
  | .accepted (some f) => handleUpload cfg env uniqueSuffix f fs0

/-- The configuration src/server.js passes to `removeBackground`: only a
progress callback, no model selector. -/
def configA : ImglyConfig := { model := none }

/-- The configuration src/unnamed/part_000 passes to `removeBackground`:
`imglyConfig` with `model: "small"` and a progress callback. -/
def configC : ImglyConfig := { model := some "small" }

/-- Variant A: the POST /remove-background behaviour of src/server.js. -/
def serverRespondA : Env → String → Request → FS → HttpResponse × FS :=
  serverRespond configA

/-- Variant C: the POST /remove-background behaviour of
src/unnamed/part_000. -/
def serverRespondC : Env → String → Request → FS → HttpResponse × FS :=
  serverRespond configC

/-- The `error` field of a JSON error body, if the body is one. -/
def errorField : RespBody → Option String
  | .bytes _ => none
  | .errorOnly e => some e
  | .errorFull e _ _ _ => some e

/-- Byte length of a response body (0 for JSON bodies). -/
def bodyByteLength : RespBody → Nat
  | .bytes b => b.length
  | _ => 0

/-- Whether a character is one of the sixteen lowercase hex digits that
`crypto.randomBytes(n).toString("hex")` produces. -/
def hexChar (c : Char) : Bool :=
  c.isDigit || ('a' ≤ c && c ≤ 'f')

/-- No character of the list is a path separator. -/
def noSlash (l : List Char) : Bool :=
  l.all (fun c => c != '/')

/-- Split a character list on the path separator, keeping empty
components, so that traversal components ".." can be inspected. -/
def splitSlash : List Char → List (List Char)
  | [] => [[]]
  | c :: cs =>
    if c == '/' then [] :: splitSlash cs
    else
      match splitSlash cs with
      | [] => [[c]]
      | g :: gs => (c :: g) :: gs

/-- A fixture blob standing for one concrete successful removal. -/
def blobNoop : Blob := ⟨"image/png", [137, 80, 78, 71]⟩

/-- A fixture environment where staging, removal and cleanup all
succeed and the removal result is `blobNoop` whatever the input. -/
def envNoop : Env where
  writeOk := true
  writeErr := ⟨"Error", "disk full", none⟩
  removeBackground := fun _ _ => Except.ok blobNoop
  unlinkOk := true

/-- A fixture environment where the removal call always throws. -/
def envRemoveFails : Env where
  writeOk := true
  writeErr := ⟨"Error", "disk full", none⟩
  removeBackground := fun _ _ => Except.error ⟨"TypeError", "boom", some "cause0"⟩
  unlinkOk := true

/-- A fixture environment whose backend result depends on the `model`
configuration key, as an in-process model selected by it may. -/
def envModelSensitive : Env where
  writeOk := true
  writeErr := ⟨"Error", "disk full", none⟩
  removeBackground := fun _ c =>
    Except.ok ⟨"image/png", (if c.model = none then [1] else [2])⟩
  unlinkOk := true

/-- A fixture request with one small valid PNG upload. -/
def reqSmall : Request := ⟨some ⟨"x.png", "image/png", [7, 3]⟩, none⟩

/-- The file of `reqSmall`. -/
def smallF : UploadFile := ⟨"x.png", "image/png", [7, 3]⟩

/-- A fixture request with no file in the `image` field. -/
def reqNoFile : Request := ⟨none, some "full"⟩

/-- A fixture upload whose name ends in `.png` but whose declared MIME
type is `text/plain`, as a renamed `.txt` file arrives. -/
def badTypeF : UploadFile := ⟨"note.png", "text/plain", [104, 105]⟩

/-- A fixture zero-byte upload of an allowed type. -/
def zeroF : UploadFile := ⟨"z.png", "image/png", []⟩

/-- A fixture upload of exactly `10 * 1024 * 1024` bytes. -/
def exactF : UploadFile := ⟨"e.png", "image/png", List.replicate 10485760 0⟩

/-- A fixture upload of `10 * 1024 * 1024 + 1` bytes. -/
def overF : UploadFile := ⟨"o.png", "image/png", List.replicate 10485761 0⟩

end BgRemover
namespace BgRemover

theorem fsHas_fsDel (fs : FS) (p : String) : fsHas (fsDel fs p) p = false := by
  simp [fsHas, fsDel, List.any_filter, bne]

theorem cleanup_clears (env : Env) (p : String) (fs : FS) (hu : env.unlinkOk = true) :
    fsHas (cleanupTempFile env p fs) p = false := by
  unfold cleanupTempFile
  by_cases h : fsHas fs p
  · simp [h, hu, fsHas_fsDel]
  · simp [h]

theorem multer_accepts (req : Request) (f : UploadFile) (hf : req.file = some f)
    (hmime : allowedMime f.mimetype = true) (hsize : f.size ≤ fileSizeLimit) :
    multerProcess req.file = .accepted (some f) := by
  rw [hf]
  simp [multerProcess, hmime, hsize]

theorem serverRespond_accepted (cfg : ImglyConfig) (env : Env) (s : String) (req : Request)
    (f : UploadFile) (fs0 : FS) (hmp : multerProcess req.file = .accepted (some f)) :
    serverRespond cfg env s req fs0 = handleUpload cfg env s f fs0 := by
  unfold serverRespond
  rw [hmp]

theorem overF_size : overF.size = 10485761 := by
  rw [overF, UploadFile.size]
  exact List.length_replicate _ _

theorem exactF_size : exactF.size = 10485760 := by
  rw [exactF, UploadFile.size]
  exact List.length_replicate _ _

/-- C9: in both in-process-model variants, the response (status, headers
and body) and the final filesystem of POST /remove-background are
independent of the value and the presence of the `resolution` query
parameter: two requests identical except for it are answered
identically. -/
theorem resolution_is_never_read (cfg : ImglyConfig) (env : Env) (s : String)
    (mf : Option UploadFile) (r1 r2 : Option String) (fs0 : FS) :
    serverRespond cfg env s ⟨mf, r1⟩ fs0 = serverRespond cfg env s ⟨mf, r2⟩ fs0 := rfl

/-- C6: a request carrying no file in the `image` field is answered 400
with the one-field JSON body, the filesystem is untouched (no staged
file is written), and the whole outcome is independent of the staging,
removal and cleanup oracles and of the unique suffix (no external call
is made). -/
theorem missing_file_rejected (cfg : ImglyConfig) (env env2 : Env) (s s2 : String)
    (req : Request) (fs0 : FS) (hf : req.file = none) :
    (serverRespond cfg env s req fs0).1 = missingFileResponse ∧
    missingFileResponse.status = 400 ∧
    errorField missingFileResponse.body = some "No image file uploaded." ∧
    (serverRespond cfg env s req fs0).2 = fs0 ∧
    serverRespond cfg env s req fs0 = serverRespond cfg env2 s2 req fs0 := by
  unfold serverRespond
  rw [hf]
  simp [multerProcess, errorField, missingFileResponse]

/-- C6 witness at a concrete file-less request. -/
theorem missing_file_rejected_instance :
    (serverRespond configA envNoop "a1b2c3d4e5f6" reqNoFile []).1 = missingFileResponse ∧
    missingFileResponse.status = 400 ∧
    errorField missingFileResponse.body = some "No image file uploaded." ∧
    (serverRespond configA envNoop "a1b2c3d4e5f6" reqNoFile []).2 = [] ∧
    serverRespond configA envNoop "a1b2c3d4e5f6" reqNoFile [] =
      serverRespond configA envRemoveFails "ffffffffffff" reqNoFile [] :=
  missing_file_rejected configA envNoop envRemoveFails "a1b2c3d4e5f6" "ffffffffffff" reqNoFile [] rfl

/-- C5: an upload whose size exceeds the ceiling is answered 400, the
filesystem is untouched (no staging write happened), and the whole
outcome is independent of the staging, removal and cleanup oracles and
of the unique suffix (the rejection happens before any external call is
attempted). -/
theorem oversize_rejected (cfg : ImglyConfig) (env env2 : Env) (s s2 : String)
    (req : Request) (f : UploadFile) (fs0 : FS)
    (hf : req.file = some f) (hsize : fileSizeLimit < f.size) :
    (serverRespond cfg env s req fs0).1.status = 400 ∧
    (errorField (serverRespond cfg env s req fs0).1.body).isSome = true ∧
    (serverRespond cfg env s req fs0).2 = fs0 ∧
    serverRespond cfg env s req fs0 = serverRespond cfg env2 s2 req fs0 := by
  by_cases hm : allowedMime f.mimetype = true
  · have hns : ¬ (f.size ≤ fileSizeLimit) := by omega
    simp [serverRespond, hf, multerProcess, hm, hns, multerErrorResponse, errorField]
  · simp [serverRespond, hf, multerProcess, hm, fileFilterErrorResponse, errorField]

/-- C5 witness at a concrete upload of 10485761 bytes. -/
theorem oversize_rejected_instance :
    (serverRespond configA envNoop "a1b2c3d4e5f6" ⟨some overF, none⟩ []).1.status = 400 ∧
    (errorField (serverRespond configA envNoop "a1b2c3d4e5f6" ⟨some overF, none⟩ []).1.body).isSome = true ∧
    (serverRespond configA envNoop "a1b2c3d4e5f6" ⟨some overF, none⟩ []).2 = [] ∧
    serverRespond configA envNoop "a1b2c3d4e5f6" ⟨some overF, none⟩ [] =
      serverRespond configA envRemoveFails "ffffffffffff" ⟨some overF, none⟩ [] :=
  oversize_rejected configA envNoop envRemoveFails "a1b2c3d4e5f6" "ffffffffffff"
    ⟨some overF, none⟩ overF [] rfl
    (by rw [overF_size]; norm_num [fileSizeLimit])

/-- C4: an upload whose declared MIME type is outside the allow-list is
rejected by the fileFilter with the 400 response of the global error
handler, the filesystem is untouched (no staged file is created), the
outcome is independent of the oracles, and the rejection is governed by
the declared MIME type alone: it stands whatever the filename (and so
whatever its extension). -/
theorem bad_mime_rejected (cfg : ImglyConfig) (env env2 : Env) (s s2 : String)
    (req : Request) (f : UploadFile) (fs0 : FS)
    (hf : req.file = some f) (hbad : allowedMime f.mimetype = false) :
    (serverRespond cfg env s req fs0).1 = fileFilterErrorResponse ∧
    fileFilterErrorResponse.status = 400 ∧
    (errorField fileFilterErrorResponse.body).isSome = true ∧
    (serverRespond cfg env s req fs0).2 = fs0 ∧
    serverRespond cfg env s req fs0 = serverRespond cfg env2 s2 req fs0 ∧
    (∀ n : String, multerProcess (some { f with originalname := n }) = .typeError) := by
  refine ⟨?_, rfl, rfl, ?_, ?_, ?_⟩ <;>
    simp [serverRespond, hf, multerProcess, hbad]

/-- C4 witness at a `.txt` file renamed to `note.png` with declared MIME
type `text/plain`. -/
theorem bad_mime_rejected_instance :
    (serverRespond configA envNoop "a1b2c3d4e5f6" ⟨some badTypeF, none⟩ []).1 = fileFilterErrorResponse ∧
    fileFilterErrorResponse.status = 400 ∧
    (errorField fileFilterErrorResponse.body).isSome = true ∧
    (serverRespond configA envNoop "a1b2c3d4e5f6" ⟨some badTypeF, none⟩ []).2 = [] ∧
    serverRespond configA envNoop "a1b2c3d4e5f6" ⟨some badTypeF, none⟩ [] =
      serverRespond configA envRemoveFails "ffffffffffff" ⟨some badTypeF, none⟩ [] ∧
    (∀ n : String, multerProcess (some { badTypeF with originalname := n }) = .typeError) :=
  bad_mime_rejected configA envNoop envRemoveFails "a1b2c3d4e5f6" "ffffffffffff"
    ⟨some badTypeF, none⟩ badTypeF [] rfl (by decide)

/-- C10: the size ceiling shared by both variants is exactly
`10 * 1024 * 1024 = 10485760` bytes: an allowed-type upload of at most
that many bytes passes the multer size check, and one of more bytes is
rejected by it, so that in either variant it is answered 400. -/
theorem size_ceiling_exact (f : UploadFile) (hmime : allowedMime f.mimetype = true) :
    fileSizeLimit = 10485760 ∧
    (f.size ≤ 10485760 → multerProcess (some f) = .accepted (some f)) ∧
    (10485760 < f.size → multerProcess (some f) = .sizeError) ∧
    (10485760 < f.size → ∀ (env : Env) (s : String) (r : Option String) (fs0 : FS),
      (serverRespondA env s ⟨some f, r⟩ fs0).1.status = 400 ∧
      (serverRespondC env s ⟨some f, r⟩ fs0).1.status = 400) := by
  refine ⟨rfl, ?_, ?_, ?_⟩
  · intro hle
    simp [multerProcess, hmime, fileSizeLimit, hle]
  · intro hgt
    have hns : ¬ (f.size ≤ fileSizeLimit) := by
      rw [fileSizeLimit]
      omega
    simp [multerProcess, hmime, hns]
  · intro hgt env s r fs0
    have hns : ¬ (f.size ≤ fileSizeLimit) := by
      rw [fileSizeLimit]
      omega
    constructor <;>
      simp [serverRespondA, serverRespondC, serverRespond, multerProcess, hmime, hns,
        multerErrorResponse]

/-- C10 witness: the ceiling accepts the zero-byte upload and the
upload of exactly 10485760 bytes, and rejects one of 10485761 bytes. -/
theorem size_ceiling_exact_instance :
    multerProcess (some zeroF) = .accepted (some zeroF) ∧
    multerProcess (some exactF) = .accepted (some exactF) ∧
    multerProcess (some overF) = .sizeError :=
  ⟨(size_ceiling_exact zeroF rfl).2.1 (by decide),
   (size_ceiling_exact exactF rfl).2.1 (by rw [exactF_size]),
   (size_ceiling_exact overF rfl).2.2.1 (by rw [overF_size]; norm_num)⟩

/-- C2: when the staging write and the background-removal call succeed,
the response is 200, its Content-Type is the blob type declared by the
backend or `image/png` when the backend leaves it unspecified, its
Content-Disposition is the fixed inline filename, and its body is
exactly the processed bytes, hence of positive byte length whenever the
backend produced any bytes. -/
theorem success_response_shape (cfg : ImglyConfig) (env : Env) (s : String) (req : Request)
    (f : UploadFile) (fs0 : FS) (blob : Blob)
    (hf : req.file = some f) (hmime : allowedMime f.mimetype = true)
    (hsize : f.size ≤ fileSizeLimit) (hw : env.writeOk = true)
    (hr : env.removeBackground (fileURL (tempInputPath s f.originalname)) cfg = .ok blob)
    (hnz : blob.bdata ≠ []) :
    (serverRespond cfg env s req fs0).1.status = 200 ∧
    (blob.btype ≠ "" → (serverRespond cfg env s req fs0).1.contentType = some blob.btype) ∧
    (blob.btype = "" → (serverRespond cfg env s req fs0).1.contentType = some "image/png") ∧
    (serverRespond cfg env s req fs0).1.contentDisposition =
      some "inline; filename=\"background-removed.png\"" ∧
    (serverRespond cfg env s req fs0).1.body = .bytes blob.bdata ∧
    0 < bodyByteLength (serverRespond cfg env s req fs0).1.body := by
  rw [serverRespond_accepted cfg env s req f fs0 (multer_accepts req f hf hmime hsize)]
  unfold handleUpload
  rw [hw]
  simp only [if_true]
  rw [hr]
  refine ⟨rfl, ?_, ?_, rfl, rfl, ?_⟩
  · intro hne
    simp [successResponse, hne]
  · intro he
    simp [successResponse, he]
  · simp [successResponse, bodyByteLength]
    exact List.length_pos.mpr hnz

/-- C2 witness at a concrete successful run. -/
theorem success_response_shape_instance :
    (serverRespond configA envNoop "a1b2c3d4e5f6" reqSmall []).1.status = 200 ∧
    (blobNoop.btype ≠ "" →
      (serverRespond configA envNoop "a1b2c3d4e5f6" reqSmall []).1.contentType = some blobNoop.btype) ∧
    (blobNoop.btype = "" →
      (serverRespond configA envNoop "a1b2c3d4e5f6" reqSmall []).1.contentType = some "image/png") ∧
    (serverRespond configA envNoop "a1b2c3d4e5f6" reqSmall []).1.contentDisposition =
      some "inline; filename=\"background-removed.png\"" ∧
    (serverRespond configA envNoop "a1b2c3d4e5f6" reqSmall []).1.body = .bytes blobNoop.bdata ∧
    0 < bodyByteLength (serverRespond configA envNoop "a1b2c3d4e5f6" reqSmall []).1.body :=
  success_response_shape configA envNoop "a1b2c3d4e5f6" reqSmall smallF [] blobNoop
    rfl rfl (by decide) rfl rfl (by decide)

/-- C3: when staging or the background-removal call throws, the
response is the 500 JSON of the catch block: an `error` summary, a
`details` field equal to the error message, a `name` field equal to the
error name, and a `cause` field that is the stringified cause when one
is present and null otherwise. -/
theorem error_response_shape (cfg : ImglyConfig) (env : Env) (s : String) (req : Request)
    (f : UploadFile) (fs0 : FS) (e : JsError)
    (hf : req.file = some f) (hmime : allowedMime f.mimetype = true)
    (hsize : f.size ≤ fileSizeLimit)
    (herr : (env.writeOk = false ∧ e = env.writeErr) ∨
      (env.writeOk = true ∧
        env.removeBackground (fileURL (tempInputPath s f.originalname)) cfg = .error e)) :
    (serverRespond cfg env s req fs0).1 = errorResponse e ∧
    (errorResponse e).status = 500 ∧
    (errorResponse e).body = .errorFull "Failed to remove background." e.msg e.ename e.cause := by
  rw [serverRespond_accepted cfg env s req f fs0 (multer_accepts req f hf hmime hsize)]
  unfold handleUpload
  rcases herr with ⟨hw, he⟩ | ⟨hw, he⟩
  · rw [hw]
    simp only [if_false, Bool.false_eq_true]
    exact ⟨by rw [he], rfl, rfl⟩
  · rw [hw]
    simp only [if_true]
    rw [he]
    exact ⟨rfl, rfl, rfl⟩

/-- C3 witness at a concrete run whose removal call throws a TypeError
with a cause. -/
theorem error_response_shape_instance :
    (serverRespond configA envRemoveFails "a1b2c3d4e5f6" reqSmall []).1 =
      errorResponse ⟨"TypeError", "boom", some "cause0"⟩ ∧
    (errorResponse ⟨"TypeError", "boom", some "cause0"⟩).status = 500 ∧
    (errorResponse ⟨"TypeError", "boom", some "cause0"⟩).body =
      .errorFull "Failed to remove background." "boom" "TypeError" (some "cause0") :=
  error_response_shape configA envRemoveFails "a1b2c3d4e5f6" reqSmall smallF []
    ⟨"TypeError", "boom", some "cause0"⟩ rfl rfl (by decide) (Or.inr ⟨rfl, rfl⟩)

/-- C1: for a request that reaches staging (the multer-accepted file
was written), the staged path is absent from the filesystem once the
handler returns, on the success path and on the error path alike,
provided the unlink itself does not fail; the response is the same
whatever the cleanup outcome (a logged unlink failure never overrides
the prepared response); and the cleanup step is a no-op, raising
nothing, when the file is already absent. -/
theorem staged_file_lifecycle (cfg : ImglyConfig) (env : Env) (s : String) (req : Request)
    (f : UploadFile) (fs0 : FS)
    (hf : req.file = some f) (hmime : allowedMime f.mimetype = true)
    (hsize : f.size ≤ fileSizeLimit) (hw : env.writeOk = true)
    (hu : env.unlinkOk = true) :
    fsHas (serverRespond cfg env s req fs0).2 (tempInputPath s f.originalname) = false ∧
    (∀ b : Bool, (serverRespond cfg { env with unlinkOk := b } s req fs0).1 =
      (serverRespond cfg env s req fs0).1) ∧
    (∀ fs : FS, fsHas fs (tempInputPath s f.originalname) = false →
      cleanupTempFile env (tempInputPath s f.originalname) fs = fs) := by
  have hacc := multer_accepts req f hf hmime hsize
  refine ⟨?_, ?_, ?_⟩
  · rw [serverRespond_accepted cfg env s req f fs0 hacc]
    unfold handleUpload
    rw [hw]
    simp only [if_true]
    cases env.removeBackground (fileURL (tempInputPath s f.originalname)) cfg with
    | ok blob => exact cleanup_clears env _ _ hu
    | error e => exact cleanup_clears env _ _ hu
  · intro b
    rw [serverRespond_accepted cfg env s req f fs0 hacc,
      serverRespond_accepted cfg { env with unlinkOk := b } s req f fs0 hacc]
    unfold handleUpload
    cases env with
    | mk w we rb u =>
      simp only []
      cases w <;> cases hrb : rb (fileURL (tempInputPath s f.originalname)) cfg <;>
        simp [hrb]
  · intro fs hno
    unfold cleanupTempFile
    rw [hno]
    simp

/-- C1 witness: a concrete request staged into an initially empty
filesystem, with a failing removal call, leaves no staged file behind,
and its response ignores the cleanup outcome. -/
theorem staged_file_lifecycle_instance :
    fsHas (serverRespond configA envRemoveFails "a1b2c3d4e5f6" reqSmall []).2
      (tempInputPath "a1b2c3d4e5f6" smallF.originalname) = false ∧
    (∀ b : Bool,
      (serverRespond configA { envRemoveFails with unlinkOk := b } "a1b2c3d4e5f6" reqSmall []).1 =
      (serverRespond configA envRemoveFails "a1b2c3d4e5f6" reqSmall []).1) ∧
    (∀ fs : FS, fsHas fs (tempInputPath "a1b2c3d4e5f6" smallF.originalname) = false →
      cleanupTempFile envRemoveFails (tempInputPath "a1b2c3d4e5f6" smallF.originalname) fs = fs) :=
  staged_file_lifecycle configA envRemoveFails "a1b2c3d4e5f6" reqSmall smallF []
    rfl rfl (by decide) rfl rfl

/-- C8 counterexample: the claim that src/server.js and
src/unnamed/part_000 answer every request identically fails on a
backend whose result depends on the model configuration, because the
two variants pass different configurations to `removeBackground` (no
model selector versus `model: "small"`). -/
theorem variants_can_differ :
    ¬ (∀ (env : Env) (s : String) (req : Request) (fs0 : FS),
      (serverRespondA env s req fs0).1 = (serverRespondC env s req fs0).1) := by
  intro h
  have h2 := h envModelSensitive "a1b2c3d4e5f6" reqSmall []
  revert h2
  decide

/-- C8 as amended: whenever the backend's result does not depend on the
configuration it is handed, the two variants produce identical
responses and identical filesystem effects on every request; their
remaining differences are logging and the model configuration passed to
`removeBackground`. -/
theorem variants_agree_when_backend_config_blind (env : Env) (s : String) (req : Request)
    (fs0 : FS)
    (h : ∀ (u : String) (c1 c2 : ImglyConfig),
      env.removeBackground u c1 = env.removeBackground u c2) :
    serverRespondA env s req fs0 = serverRespondC env s req fs0 := by
  unfold serverRespondA serverRespondC serverRespond
  cases hmp : multerProcess req.file with
  | accepted mf =>
    cases mf with
    | none => rfl
    | some f =>
      simp only [handleUpload]
      rw [h (fileURL (tempInputPath s f.originalname)) configA configC]
  | sizeError => rfl
  | typeError => rfl

/-- C8 amended-claim witness at a backend that ignores its
configuration. -/
theorem variants_agree_when_backend_config_blind_instance :
    serverRespondA envNoop "a1b2c3d4e5f6" reqSmall [] =
      serverRespondC envNoop "a1b2c3d4e5f6" reqSmall [] :=
  variants_agree_when_backend_config_blind envNoop "a1b2c3d4e5f6" reqSmall []
    (fun _ _ _ => rfl)

theorem noSlash_takeWhile (l : List Char) :
    noSlash (l.takeWhile (fun c => c != '/')) = true := by
  unfold noSlash
  rw [List.all_eq_true]
  intro c hc
  have h3 := List.mem_takeWhile_imp hc
  simpa using h3

theorem noSlash_reverse (l : List Char) : noSlash l.reverse = noSlash l := by
  unfold noSlash
  exact List.all_reverse

theorem basename_shape (s : String) :
    basename s = "/" ∨ noSlash (basename s).data = true := by
  unfold basename basenameChars
  dsimp only
  split
  · split
    · right
      rfl
    · left
      rfl
  · right
    rw [noSlash_reverse]
    exact noSlash_takeWhile _

theorem splitSlash_noSlash (l : List Char) (h : noSlash l = true) :
    splitSlash l = [l] := by
  induction l with
  | nil => rfl
  | cons c cs ih =>
    rw [noSlash, List.all_cons, Bool.and_eq_true] at h
    obtain ⟨h1, h2⟩ := h
    have h4 : c ≠ '/' := by simpa using h1
    have hc : ¬ ((c == '/') = true) := by simpa using h4
    rw [splitSlash, if_neg hc, ih h2]

theorem splitSlash_append (a b : List Char) (h : noSlash a = true) :
    splitSlash (a ++ '/' :: b) = a :: splitSlash b := by
  induction a with
  | nil =>
    simp [splitSlash]
  | cons c cs ih =>
    rw [noSlash, List.all_cons, Bool.and_eq_true] at h
    obtain ⟨h1, h2⟩ := h
    have h4 : c ≠ '/' := by simpa using h1
    have hc : ¬ ((c == '/') = true) := by simpa using h4
    rw [List.cons_append, splitSlash, if_neg hc, ih h2]

/-- C7: the staged path lies in the system scratch directory under a
filename built from the unique hex suffix and the sanitized base name:
the path is the scratch directory plus the synthesized filename, no
component of the path is a traversal component ".." or "." (so no
client-supplied path component escapes the scratch directory), and two
requests with distinct 12-character suffixes get distinct staged paths
whatever their client-supplied filenames. -/
theorem staged_path_confined (s n : String)
    (hlen : s.data.length = 12) (hhex : s.data.all hexChar = true) :
    tempInputPath s n = "/tmp/" ++ tempInputFilename s n ∧
    (∀ c ∈ splitSlash (tempInputPath s n).data, c ≠ ['.', '.'] ∧ c ≠ ['.']) ∧
    (∀ s2 n2 : String, s2.data.length = 12 → s ≠ s2 →
      tempInputPath s n ≠ tempInputPath s2 n2) := by
  have hs : noSlash s.data = true := by
    rw [noSlash, List.all_eq_true]
    intro c hc
    have h5 := List.all_eq_true.mp hhex c hc
    have h6 : c ≠ '/' := by
      intro he
      rw [he] at h5
      exact absurd h5 (by decide)
    simpa using h6
  refine ⟨rfl, ?_, ?_⟩
  · have e1 : (tempInputPath s n).data =
        '/' :: (['t', 'm', 'p'] ++ '/' :: (tempInputFilename s n).data) := rfl
    have e2 : splitSlash (tempInputPath s n).data =
        [] :: ['t', 'm', 'p'] :: splitSlash (tempInputFilename s n).data := by
      rw [e1, splitSlash, if_pos (by decide),
        splitSlash_append ['t', 'm', 'p'] _ (by decide)]
    rcases basename_shape n with hb | hb
    · have e3 : (tempInputFilename s n).data =
          ('i' :: 'n' :: 'p' :: 'u' :: 't' :: '-' :: (s.data ++ ['-'])) ++ '/' :: [] := by
        rw [tempInputFilename, hb]
        rfl
      have hpre : noSlash ('i' :: 'n' :: 'p' :: 'u' :: 't' :: '-' :: (s.data ++ ['-'])) = true := by
        rw [noSlash] at hs ⊢
        simp [List.all_append, hs]
      have e4 : splitSlash (tempInputFilename s n).data =
          [('i' :: 'n' :: 'p' :: 'u' :: 't' :: '-' :: (s.data ++ ['-'])), []] := by
        rw [e3, splitSlash_append _ _ hpre]
        rfl
      rw [e2, e4]
      intro c hc
      rcases (by simpa using hc :
          c = [] ∨ c = ['t', 'm', 'p'] ∨
          c = 'i' :: 'n' :: 'p' :: 'u' :: 't' :: '-' :: (s.data ++ ['-']) ∨ c = []) with
        rfl | rfl | rfl | rfl
      · exact ⟨by decide, by decide⟩
      · exact ⟨by decide, by decide⟩
      · constructor <;> (intro hq; simp at hq)
      · exact ⟨by decide, by decide⟩
    · have hfn : noSlash (tempInputFilename s n).data = true := by
        have e5 : (tempInputFilename s n).data =
            'i' :: 'n' :: 'p' :: 'u' :: 't' :: '-' :: ((s.data ++ ['-']) ++ (basename n).data) := rfl
        rw [e5, noSlash]
        rw [noSlash] at hs hb
        simp [List.all_append, hs, hb]
      rw [e2, splitSlash_noSlash _ hfn]
      intro c hc
      rcases (by simpa using hc :
          c = [] ∨ c = ['t', 'm', 'p'] ∨ c = (tempInputFilename s n).data) with
        rfl | rfl | rfl
      · exact ⟨by decide, by decide⟩
      · exact ⟨by decide, by decide⟩
      · have e5 : (tempInputFilename s n).data =
            'i' :: 'n' :: 'p' :: 'u' :: 't' :: '-' :: ((s.data ++ ['-']) ++ (basename n).data) := rfl
        rw [e5]
        constructor <;> (intro hq; simp at hq)
  · intro s2 n2 hlen2 hne heq
    apply hne
    have hd := congrArg String.data heq
    have hd2 : ('/' :: 't' :: 'm' :: 'p' :: '/' :: 'i' :: 'n' :: 'p' :: 'u' :: 't' :: '-' ::
        ((s.data ++ ['-']) ++ (basename n).data) : List Char) =
        '/' :: 't' :: 'm' :: 'p' :: '/' :: 'i' :: 'n' :: 'p' :: 'u' :: 't' :: '-' ::
        ((s2.data ++ ['-']) ++ (basename n2).data) := hd
    simp only [List.cons.injEq, true_and] at hd2
    have h12 := (List.append_inj hd2 (by simp [hlen, hlen2])).1
    have hsd := (List.append_inj h12 (hlen.trans hlen2.symm)).1
    cases s
    cases s2
    simp_all

/-- C7 witness at the traversal-shaped client filename
`../../etc/passwd` and two concrete distinct hex suffixes. -/
theorem staged_path_confined_instance :
    tempInputPath "a1b2c3d4e5f6" "../../etc/passwd" =
      "/tmp/" ++ tempInputFilename "a1b2c3d4e5f6" "../../etc/passwd" ∧
    (∀ c ∈ splitSlash (tempInputPath "a1b2c3d4e5f6" "../../etc/passwd").data,
      c ≠ ['.', '.'] ∧ c ≠ ['.']) ∧
    tempInputPath "a1b2c3d4e5f6" "../../etc/passwd" ≠
      tempInputPath "000000000000" "../../etc/passwd" := by
  obtain ⟨h1, h2, h3⟩ :=
    staged_path_confined "a1b2c3d4e5f6" "../../etc/passwd" (by decide) (by decide)
  exact ⟨h1, h2, h3 "000000000000" "../../etc/passwd" (by decide) (by decide)⟩

end BgRemover
